import Mathlib

/-!
Verification development for the `screenrecorder` repository
(`src/screenrecord.py`).

The file shallowly embeds the segment-based recording workflow of the
`ScreenRecorder` class: `toggle_recording`, `toggle_pause`,
`_start_segment`, `_stop_current_segment` and `_combine_segments`.
External effects (the ffmpeg subprocesses, the file system, the xrandr /
xwininfo queries, Tk dialogs) are modelled explicitly:

* subprocesses live in a `World` of active process ids (`Popen` allocates
  a fresh pid; terminate/kill removes it);
* the file system is the list of paths existing in the output directory;
* results of external queries (xrandr geometry, the window the user
  clicked, the dialog answer for the output name, whether the concat
  subprocess produced its output, whether the stop timed out) are inputs
  of each transition;
* GUI label/button updates (`config`, `set_status`) and the final
  `ffmpeg.probe` metadata display are omitted: they write only to Tk
  widgets and never feed back into the recording logic.

Observable behaviour is recorded in a trace of `Event`s.
-/

namespace Screenrec

/-- Python `str.lower()` (character-wise lowering of the quality option;
`"Low"`, `"Medium"`, `"High"` are the only values the combobox offers). -/
def pyLower (s : String) : String :=
  String.mk (s.data.map Char.toLower)

/-- Python `str.strip()`: remove leading and trailing whitespace. -/
def pyStrip (s : String) : String :=
  String.mk
    (((s.data.dropWhile Char.isWhitespace).reverse.dropWhile Char.isWhitespace).reverse)

/-- Python `s.split(',')`: split on every comma, keeping empty pieces
(`"".split(',') == ['']`, `"a,".split(',') == ['a', '']`). -/
def pySplitComma : List Char → List Char → List String
  | [], acc => [String.mk acc.reverse]
  | c :: rest, acc =>
    if c = ',' then String.mk acc.reverse :: pySplitComma rest []
    else pySplitComma rest (c :: acc)

/-- Python `str.strip()` followed by `int(...)`: optional sign, then a
decimal digit part in which single underscores may separate digits
(`int("1_0") = 10`, while `int("_1")`, `int("1_")`, `int("1__0")` fail).
Models the `int(x.strip())` calls of `_start_segment`'s window branch. -/
def pyDigitsAux : List Char → Nat → Option Nat
  | [], acc => some acc
  | '_' :: c :: rest, acc =>
    if c.isDigit then pyDigitsAux rest (acc * 10 + (c.toNat - 48)) else none
  | c :: rest, acc =>
    if c.isDigit then pyDigitsAux rest (acc * 10 + (c.toNat - 48)) else none

/-- Python `int(s.strip())`, returning `none` where Python raises
`ValueError`. -/
def pyInt? (s : String) : Option Int :=
  match (pyStrip s).data with
  | '-' :: c :: rest =>
    if c.isDigit then (pyDigitsAux rest (c.toNat - 48)).map (fun n => -(n : Int)) else none
  | '+' :: c :: rest =>
    if c.isDigit then (pyDigitsAux rest (c.toNat - 48)).map (fun n => (n : Int)) else none
  | c :: rest =>
    if c.isDigit then (pyDigitsAux rest (c.toNat - 48)).map (fun n => (n : Int)) else none
  | [] => none

/-- The window branch of `_start_segment`:
`parts = [int(x.strip()) for x in geometry.split(',')]` followed by the
`len(parts) != 4` check; any `ValueError` and the length failure both land
in the same `except` arm (modelled as `none`). -/
def parse_window_geometry (g : String) : Option (Int × Int × Int × Int) :=
  match (pySplitComma g.data []).mapM pyInt? with
  | none => none
  | some [x, y, w, h] => some (x, y, w, h)
  | some _ => none

/-- Python `s.startswith(pre)`. -/
def pyStartswith (s pre : String) : Bool :=
  pre.data.isPrefixOf s.data

/-- Python `s.endswith(suf)`. -/
def pyEndswith (s suf : String) : Bool :=
  suf.data.isSuffixOf s.data

/-- Mutable state of the `ScreenRecorder` instance (the fields assigned in
`__init__`, plus `resolution_value` which is first assigned inside
`_start_segment`).  Tk widget references are not state of the recording
logic and are omitted.  `start_time` holds `time.time()` as an abstract
tick. -/
structure ScreenRecorder where
  is_recording : Bool
  paused : Bool
  start_time : Option Nat
  output_dir : String
  segments : List String
  current_segment_proc : Option Nat
  current_segment_file : Option String
  selected_window_geometry : Option String
  resolution_value : Option String
deriving Repr, DecidableEq

/-- The fixed default audio device order set in `__init__`:
`self.audio_devices = ['hw:0,7', 'hw:0,6']`.  It is never mutated, so it
is a constant rather than a state field. -/
def audio_devices : List String := ["hw:0,7", "hw:0,6"]

/-- The operating system side: which capture subprocesses are alive.
`Popen` hands out `nextPid` and appends it to `active`; terminate/kill
erase a pid. -/
structure World where
  nextPid : Nat
  active : List Nat
deriving Repr, DecidableEq

/-- `subprocess.Popen(cmd, ...)`: a fresh process is created. -/
def popen (w : World) : Nat × World :=
  (w.nextPid, { nextPid := w.nextPid + 1, active := w.active ++ [w.nextPid] })

/-- Observable events of one transition. -/
inductive Event where
  | dialog (title : String)
  | launched (seg_index : Nat) (file : String) (pid : Nat) (cmd : List String)
  | stopped (pid : Nat) (timeoutSeconds : Nat) (killed : Bool)
  | combineInvoked (segs : List String)
  | manifestWritten (file : String) (entries : List String)
  | ranConcat (cmd : List String) (createdOutput : Bool)
deriving Repr, DecidableEq

/-- Inputs read by `_start_segment` from outside the recorder state: the
two Tk option variables, the screen dimensions (`winfo_screenwidth` /
`winfo_screenheight`), `os.environ.get('DISPLAY', ':0.0')`, the result of
the external `get_monitor_geometry` query (xrandr; `none` models the
`(None, None)` return), and the current `time.time()` tick. -/
structure StartEnv where
  source_var : String
  quality_var : String
  screenW : Nat
  screenH : Nat
  display : String
  monGeom : String → Option (String × String)
  now : Nat

/-- The capture-geometry resolution at the top of `_start_segment`.
Returns the `(resolution, display_input)` pair on success, or the title of
the blocking `messagebox.showerror` dialog on the three failure paths. -/
def resolve_capture (env : StartEnv) (selected : Option String) :
    Except String (String × String) :=
  if env.source_var = "Entire Desktop" then
    .ok (Nat.repr env.screenW ++ "x" ++ Nat.repr env.screenH, env.display ++ "+0+0")
  else if env.source_var = "eDP-1" ∨ env.source_var = "HDMI-1" then
    match env.monGeom env.source_var with
    | none => .error "Monitor Error"
    | some (res, off) => .ok (res, env.display ++ off)
  else if env.source_var = "Window" then
    match selected with
    | none => .error "Window Not Selected"
    | some g =>
      match parse_window_geometry g with
      | none => .error "Window Geometry Error"
      | some (x, y, w, h) =>
        .ok (Int.repr w ++ "x" ++ Int.repr h,
             env.display ++ "+" ++ Int.repr x ++ "+" ++ Int.repr y)
  else
    .ok (Nat.repr env.screenW ++ "x" ++ Nat.repr env.screenH, env.display ++ "+0+0")

/-- The quality mapping of `_start_segment`: `(preset, crf)`. -/
def quality_settings (q : String) : String × String :=
  if pyLower q = "low" then ("ultrafast", "30")
  else if pyLower q = "high" then ("slow", "18")
  else ("medium", "23")

/-- Segment file path:
`os.path.join(self.output_dir, f"segment_{seg_index}.mp4")`. -/
def segFile (dir : String) (i : Nat) : String :=
  dir ++ "/" ++ ("segment_" ++ Nat.repr i ++ ".mp4")

/-- The ffmpeg command list built by `_start_segment`. -/
def ffmpegSegmentCmd (resolution display_input preset crf audio_dev seg_filename : String) :
    List String :=
  ["ffmpeg",
   "-f", "x11grab",
   "-video_size", resolution,
   "-i", display_input,
   "-f", "alsa",
   "-thread_queue_size", "512",
   "-i", audio_dev,
   "-c:v", "libx264",
   "-preset", preset,
   "-crf", crf,
   "-r", "30",
   "-c:a", "aac",
   "-ar", "44100",
   "-ac", "2",
   seg_filename]

/-- `_start_segment`.  On a geometry failure the method shows the error
dialog and returns: no state change, no subprocess.  On success it sets
`resolution_value`, allocates `segment_{len(segments)+1}.mp4`, stores the
file name and launches the capture subprocess. -/
def start_segment (env : StartEnv) (s : ScreenRecorder) (w : World) :
    ScreenRecorder × World × List Event :=
  match resolve_capture env s.selected_window_geometry with
  | .error title => (s, w, [Event.dialog title])
  | .ok rd =>
    let preset := (quality_settings env.quality_var).1
    let crf := (quality_settings env.quality_var).2
    let audio_dev := audio_devices.headD ""
    let seg_index := s.segments.length + 1
    let seg_filename := segFile s.output_dir seg_index
    let pw := popen w
    ({ s with
        resolution_value := some rd.1,
        current_segment_file := some seg_filename,
        current_segment_proc := some pw.1 },
     pw.2,
     [Event.launched seg_index seg_filename pw.1
        (ffmpegSegmentCmd rd.1 rd.2 preset crf audio_dev seg_filename)])

/-- The `communicate(input=b"q", timeout=5)` timeout of
`_stop_current_segment`. -/
def segmentStopTimeoutSeconds : Nat := 5

/-- `_stop_current_segment`: when a subprocess is running, terminate it,
wait up to 5 seconds (`killed` records whether `TimeoutExpired` forced a
`kill()`), append `current_segment_file` to `segments` and clear both
handles.  When no subprocess is running the method does nothing.
(The appended `getD "None"` mirrors Python appending whatever
`self.current_segment_file` holds; whenever the process handle is set the
file name is set too — see the reachability invariant below.) -/
def stop_current_segment (killed : Bool) (s : ScreenRecorder) (w : World) :
    ScreenRecorder × World × List Event :=
  match s.current_segment_proc with
  | none => (s, w, [])
  | some p =>
    ({ s with
        segments := s.segments ++ [s.current_segment_file.getD "None"],
        current_segment_proc := none,
        current_segment_file := none },
     { w with active := w.active.erase p },
     [Event.stopped p segmentStopTimeoutSeconds killed])

/-- A file exists: `os.path.exists`. -/
def fsExists (p : String) (fs : List String) : Bool :=
  p ∈ fs

/-- `os.remove`: the path no longer exists afterwards. -/
def fsRemove (p : String) (fs : List String) : List String :=
  fs.filter (fun q => q != p)

/-- `open(p, "w")`: the path exists afterwards (truncating an existing
file keeps it in the directory). -/
def fsWrite (p : String) (fs : List String) : List String :=
  if p ∈ fs then fs else fs ++ [p]

/-- The deletion loop of `_combine_segments`:
`for seg in self.segments: if os.path.exists(seg): os.remove(seg)`. -/
def deleteSegmentFiles (segs : List String) (fs : List String) : List String :=
  segs.foldl (fun acc seg => if fsExists seg acc then fsRemove seg acc else acc) fs

/-- `os.listdir(dir)` over the modelled flat directory: the base names of
the paths lying in `dir`. -/
def stripDir (dir : String) (p : String) : Option String :=
  if (dir ++ "/").data.isPrefixOf p.data then
    some (String.mk (p.data.drop (dir ++ "/").data.length))
  else none

/-- `os.listdir(self.output_dir)`. -/
def listdir (dir : String) (fs : List String) : List String :=
  fs.filterMap (stripDir dir)

/-- The default-name computation of `_combine_segments`:
`existing = [f for f in os.listdir(dir) if f.startswith("screenrecording") and f.endswith(".mp4")]`
then `f"screenrecording{len(existing)+1}.mp4"`. -/
def default_recording_name (listing : List String) : String :=
  let existing := listing.filter fun f =>
    pyStartswith f "screenrecording" && pyEndswith f ".mp4"
  "screenrecording" ++ Nat.repr (existing.length + 1) ++ ".mp4"

/-- The concat/re-encode command list built by `_combine_segments`. -/
def ffmpegConcatCmd (list_filename final_file : String) : List String :=
  ["ffmpeg",
   "-fflags", "+genpts",
   "-f", "concat",
   "-safe", "0",
   "-i", list_filename,
   "-vsync", "2",
   "-c:v", "libx264",
   "-preset", "medium",
   "-crf", "23",
   "-c:a", "aac",
   "-af", "aresample=async=1",
   "-ar", "44100",
   "-ac", "2",
   final_file]

/-- `_combine_segments`.  `userName` is the `simpledialog.askstring`
answer (`none` models the Python `None` on cancel), `concatCreatedOutput`
says whether the external concat subprocess left its output file behind
(`subprocess.run` is not checked for success).  With an empty segment list
the method shows the "No Segments" dialog and returns at once; otherwise
it writes the manifest, resolves the output name, runs the concat
subprocess, and then deletes every segment file and the manifest whatever
the subprocess did.  The recorder state itself is not modified (the
GUI-label updates and the `ffmpeg.probe` metadata display are omitted, see
the file comment). -/
def combine_segments (userName : Option String) (concatCreatedOutput : Bool)
    (s : ScreenRecorder) (fs : List String) :
    ScreenRecorder × List String × List Event :=
  if s.segments.isEmpty then
    (s, fs, [Event.combineInvoked s.segments, Event.dialog "No Segments"])
  else
    let list_filename := s.output_dir ++ "/" ++ "segments.txt"
    let fs1 := fsWrite list_filename fs
    let file_name :=
      match userName with
      | some n =>
        if n = "" then default_recording_name (listdir s.output_dir fs1)
        else n ++ ".mp4"
      | none => default_recording_name (listdir s.output_dir fs1)
    let final_file := s.output_dir ++ "/" ++ file_name
    let fs2 := if concatCreatedOutput then fsWrite final_file fs1 else fs1
    let fs3 := deleteSegmentFiles s.segments fs2
    let fs4 := fsRemove list_filename fs3
    (s, fs4,
     [Event.combineInvoked s.segments,
      Event.manifestWritten list_filename s.segments,
      Event.ranConcat (ffmpegConcatCmd list_filename final_file) concatCreatedOutput])

/-- `toggle_recording`.  From a non-recording state: clear the segment
list, reset `paused`, record the start time, start segment #1 and mark
`is_recording = True` (the flag is set even when `_start_segment` failed
and returned without launching anything).  From a recording state: stop
the current segment if one is running, clear `is_recording`, and combine
the segments. -/
def toggle_recording (env : StartEnv) (stopKilled : Bool)
    (userName : Option String) (concatCreatedOutput : Bool)
    (s : ScreenRecorder) (w : World) (fs : List String) :
    ScreenRecorder × World × List String × List Event :=
  if s.is_recording then
    let swe :=
      if s.current_segment_proc.isSome then stop_current_segment stopKilled s w
      else (s, w, [])
    let s2 := { swe.1 with is_recording := false }
    let rfe := combine_segments userName concatCreatedOutput s2 fs
    (rfe.1, swe.2.1, rfe.2.1, swe.2.2 ++ rfe.2.2)
  else
    let s1 := { s with segments := [], paused := false, start_time := some env.now }
    let swe := start_segment env s1 w
    ({ swe.1 with is_recording := true }, swe.2.1, fs, swe.2.2)

/-- `toggle_pause`.  Does nothing unless recording; when recording and not
paused it stops the current segment (if any) and pauses; when paused it
starts a new segment and resumes (note: `paused` is reset even when
`_start_segment` failed). -/
def toggle_pause (env : StartEnv) (stopKilled : Bool)
    (s : ScreenRecorder) (w : World) :
    ScreenRecorder × World × List Event :=
  if s.is_recording then
    if s.paused then
      let swe := start_segment env s w
      ({ swe.1 with paused := false }, swe.2.1, swe.2.2)
    else
      let swe :=
        if s.current_segment_proc.isSome then stop_current_segment stopKilled s w
        else (s, w, [])
      ({ swe.1 with paused := true }, swe.2.1, swe.2.2)
  else
    (s, w, [])

/-- The pause operation of the session controller (spec §4.3): the
`not self.paused` branch of `toggle_pause` together with the guards that
dominate it.  `toggle_pause` dispatches to this branch exactly when the
recorder is not paused (see `toggle_pause_dispatch`). -/
def pause_op (stopKilled : Bool) (s : ScreenRecorder) (w : World) :
    ScreenRecorder × World × List Event :=
  if s.is_recording then
    if s.paused then
      (s, w, [])
    else
      let swe :=
        if s.current_segment_proc.isSome then stop_current_segment stopKilled s w
        else (s, w, [])
      ({ swe.1 with paused := true }, swe.2.1, swe.2.2)
  else
    (s, w, [])

/-- The resume operation of the session controller (spec §4.3): the
`else` (paused) branch of `toggle_pause` together with the guards that
dominate it.  `toggle_pause` dispatches to this branch exactly when the
recorder is paused (see `toggle_pause_dispatch`). -/
def resume_op (env : StartEnv) (s : ScreenRecorder) (w : World) :
    ScreenRecorder × World × List Event :=
  if s.is_recording then
    if s.paused then
      let swe := start_segment env s w
      ({ swe.1 with paused := false }, swe.2.1, swe.2.2)
    else
      (s, w, [])
  else
    (s, w, [])

/-- The recorder state built by `__init__`:
`output_dir = os.path.join(os.environ['HOME'], "Videos", "Screenrecords")`,
everything else empty / false. -/
def initRecorder (home : String) : ScreenRecorder :=
  { is_recording := false
    paused := false
    start_time := none
    output_dir := home ++ "/" ++ "Videos" ++ "/" ++ "Screenrecords"
    segments := []
    current_segment_proc := none
    current_segment_file := none
    selected_window_geometry := none
    resolution_value := none }

/-- Whole-system state: recorder, OS processes, output directory
contents. -/
structure SysState where
  recorder : ScreenRecorder
  world : World
  fs : List String
deriving Repr, DecidableEq

/-- The user-driven transitions wired up in `main()`: the record button
(`toggle_recording`), the pause button (`toggle_pause`) and the
select-window button (which stores the `select_window_geometry` result —
`none` models a failed/cancelled pick). -/
inductive Act where
  | record (env : StartEnv) (stopKilled : Bool) (userName : Option String)
      (concatCreatedOutput : Bool)
  | pauseBtn (env : StartEnv) (stopKilled : Bool)
  | selectWindow (geom : Option String)

/-- One GUI event-loop transition. -/
def stepAct (a : Act) (σ : SysState) : SysState × List Event :=
  match a with
  | .record env k user created =>
    let r := toggle_recording env k user created σ.recorder σ.world σ.fs
    (⟨r.1, r.2.1, r.2.2.1⟩, r.2.2.2)
  | .pauseBtn env k =>
    let r := toggle_pause env k σ.recorder σ.world
    (⟨r.1, r.2.1, σ.fs⟩, r.2.2)
  | .selectWindow g =>
    (⟨{ σ.recorder with selected_window_geometry := g }, σ.world, σ.fs⟩, [])

/-- Run a sequence of transitions, concatenating the event traces. -/
def runActs (acts : List Act) (σ : SysState) : SysState × List Event :=
  match acts with
  | [] => (σ, [])
  | a :: rest =>
    let r := stepAct a σ
    let r2 := runActs rest r.1
    (r2.1, r.2 ++ r2.2)

/-- Initial system state: freshly constructed recorder, no live capture
subprocess, an arbitrary pre-existing output-directory content. -/
def initSys (home : String) (fs0 : List String) : SysState :=
  ⟨initRecorder home, ⟨0, []⟩, fs0⟩

/-- Files of the capture subprocesses launched in a trace, in launch
order. -/
def launchedFiles (evs : List Event) : List String :=
  evs.filterMap fun e =>
    match e with
    | .launched _ f _ _ => some f
    | _ => none

/-- Segment lists handed to `_combine_segments` in a trace. -/
def combineArgs (evs : List Event) : List (List String) :=
  evs.filterMap fun e =>
    match e with
    | .combineInvoked l => some l
    | _ => none

/-! ### Groundwork: decimal representations, strings, file-system ops -/

/-- Decode a most-significant-first list of decimal digit characters. -/
def decodeDigits (l : List Char) : Nat :=
  l.foldl (fun n c => n * 10 + (c.toNat - 48)) 0

theorem toDigitsCore_append : ∀ (fuel n : Nat) (acc : List Char),
    Nat.toDigitsCore 10 fuel n acc = Nat.toDigitsCore 10 fuel n [] ++ acc
  | 0, _, _ => rfl
  | fuel + 1, n, acc => by
    simp only [Nat.toDigitsCore]
    by_cases h : n / 10 = 0
    · simp [h]
    · simp only [h, if_false]
      rw [toDigitsCore_append fuel (n / 10) [Nat.digitChar (n % 10)],
          toDigitsCore_append fuel (n / 10) (Nat.digitChar (n % 10) :: acc)]
      simp

theorem digitChar_toNat (m : Nat) (h : m < 10) : (Nat.digitChar m).toNat - 48 = m := by
  interval_cases m <;> rfl

theorem decode_toDigitsCore : ∀ (fuel n : Nat), n < fuel →
    decodeDigits (Nat.toDigitsCore 10 fuel n []) = n
  | fuel + 1, n, h => by
    simp only [Nat.toDigitsCore]
    by_cases h0 : n / 10 = 0
    · have hn : n < 10 := by omega
      have hdc := digitChar_toNat n hn
      simp [h0, decodeDigits, Nat.mod_eq_of_lt hn, hdc]
    · have hpos : 0 < n := by
        rcases Nat.eq_zero_or_pos n with h1 | h1
        · exact absurd (by simp [h1]) h0
        · exact h1
      have hlt : n / 10 < fuel := by
        have := Nat.div_lt_self hpos (by norm_num : 1 < 10)
        omega
      have ih := decode_toDigitsCore fuel (n / 10) hlt
      simp only [h0, if_false]
      rw [toDigitsCore_append]
      simp only [decodeDigits, List.foldl_append, List.foldl_cons,
        List.foldl_nil] at ih ⊢
      rw [ih, digitChar_toNat (n % 10) (Nat.mod_lt _ (by norm_num))]
      omega

theorem decode_repr (n : Nat) : decodeDigits (Nat.repr n).data = n := by
  have : (Nat.repr n).data = Nat.toDigitsCore 10 (n + 1) n [] := rfl
  rw [this]
  exact decode_toDigitsCore (n + 1) n (Nat.lt_succ_self n)

theorem repr_data_inj {m n : Nat} (h : (Nat.repr m).data = (Nat.repr n).data) : m = n := by
  have := congrArg decodeDigits h
  rwa [decode_repr, decode_repr] at this

theorem segFile_inj {d : String} {i j : Nat} (h : segFile d i = segFile d j) : i = j := by
  apply repr_data_inj
  have hd := congrArg String.data h
  simp only [segFile, String.data_append, List.append_assoc] at hd
  have h1 := List.append_cancel_left hd
  have h2 := List.append_cancel_left h1
  have h3 := List.append_cancel_left h2
  exact List.append_cancel_right h3

/-- The default output name with index `i`. -/
def screcName (i : Nat) : String :=
  "screenrecording" ++ Nat.repr i ++ ".mp4"

theorem screcName_inj {i j : Nat} (h : screcName i = screcName j) : i = j := by
  apply repr_data_inj
  have hd := congrArg String.data h
  simp only [screcName, String.data_append, List.append_assoc] at hd
  exact List.append_cancel_right (List.append_cancel_left hd)

theorem screcName_startswith (i : Nat) :
    pyStartswith (screcName i) "screenrecording" = true := by
  rw [pyStartswith, List.isPrefixOf_iff_prefix]
  show _ <+: (screcName i).data
  simp only [screcName, String.data_append, List.append_assoc]
  exact List.prefix_append _ _

theorem screcName_endswith (i : Nat) :
    pyEndswith (screcName i) ".mp4" = true := by
  rw [pyEndswith, List.isSuffixOf_iff_suffix]
  show _ <:+ (screcName i).data
  simp only [screcName, String.data_append, List.append_assoc]
  exact (List.suffix_append _ _).trans (List.suffix_append _ _)

theorem mem_fsRemove {x p : String} {fs : List String} :
    x ∈ fsRemove p fs ↔ x ∈ fs ∧ x ≠ p := by
  simp [fsRemove, List.mem_filter, bne_iff_ne]

theorem not_mem_deleteSegmentFiles_of_not_mem :
    ∀ (segs fs : List String) (x : String), x ∉ fs →
      x ∉ deleteSegmentFiles segs fs
  | [], _, _, h => h
  | a :: rest, fs, x, h => by
    have step : deleteSegmentFiles (a :: rest) fs =
        deleteSegmentFiles rest (if fsExists a fs then fsRemove a fs else fs) := rfl
    rw [step]
    apply not_mem_deleteSegmentFiles_of_not_mem
    by_cases hm : fsExists a fs
    · simp only [hm, if_true]
      intro hx
      exact h (mem_fsRemove.mp hx).1
    · simpa [hm] using h

theorem not_mem_fsRemove_self (p : String) (fs : List String) : p ∉ fsRemove p fs := by
  intro h
  exact (mem_fsRemove.mp h).2 rfl

theorem not_mem_deleteSegmentFiles :
    ∀ (segs fs : List String) (x : String), x ∈ segs →
      x ∉ deleteSegmentFiles segs fs
  | a :: rest, fs, x, hx => by
    have step : deleteSegmentFiles (a :: rest) fs =
        deleteSegmentFiles rest (if fsExists a fs then fsRemove a fs else fs) := rfl
    rw [step]
    rcases List.mem_cons.mp hx with h | h
    · have hx2 : a ∉ (if fsExists a fs then fsRemove a fs else fs) := by
        split
        · exact not_mem_fsRemove_self a fs
        · intro hc
          next hcond => exact hcond (by simpa [fsExists] using hc)
      rw [h]
      exact not_mem_deleteSegmentFiles_of_not_mem rest _ a hx2
    · exact not_mem_deleteSegmentFiles rest _ x h

/-- `toggle_pause` is exactly the dispatch between the session
controller's pause and resume operations: the branch on `self.paused`
selects which one runs. -/
theorem toggle_pause_dispatch (env : StartEnv) (k : Bool)
    (s : ScreenRecorder) (w : World) :
    toggle_pause env k s w =
      if s.paused then resume_op env s w else pause_op k s w := by
  simp only [toggle_pause, resume_op, pause_op]
  by_cases hr : s.is_recording <;> by_cases hp : s.paused <;> simp [hr, hp]

/-! ### Reachability invariant -/

/-- State invariant maintained by every transition of the recorder:
process handle and file name are set together; a paused or idle recorder
has no running capture subprocess; the set of live capture subprocesses is
exactly what the handle says (hence never more than one); and
`segments` plus the in-flight file always form the gapless run
`segment_1.mp4 … segment_n.mp4`. -/
structure RInv (s : ScreenRecorder) (w : World) : Prop where
  proc_file : s.current_segment_proc.isSome = s.current_segment_file.isSome
  paused_no_proc : s.paused = true → s.current_segment_proc = none
  idle_no_proc : s.is_recording = false → s.current_segment_proc = none
  active_proc : ∀ p, s.current_segment_proc = some p → w.active = [p]
  active_none : s.current_segment_proc = none → w.active = []
  seg_shape : ∃ n, s.segments ++ s.current_segment_file.toList
      = (List.range' 1 n).map (segFile s.output_dir)

/-- The whole-system invariant. -/
def Inv (σ : SysState) : Prop :=
  RInv σ.recorder σ.world

theorem inv_initSys (home : String) (fs0 : List String) : Inv (initSys home fs0) :=
  ⟨rfl, fun _ => rfl, fun _ => rfl, fun _ hp => Option.noConfusion hp, fun _ => rfl, ⟨0, rfl⟩⟩

/-- Effect of `_stop_current_segment` with a live subprocess. -/
theorem stop_current_segment_some {s : ScreenRecorder} {w : World} {p : Nat}
    (hp : s.current_segment_proc = some p) (k : Bool) :
    stop_current_segment k s w =
      ({ s with
          segments := s.segments ++ [s.current_segment_file.getD "None"],
          current_segment_proc := none,
          current_segment_file := none },
       { w with active := w.active.erase p },
       [Event.stopped p segmentStopTimeoutSeconds k]) := by
  simp [stop_current_segment, hp]

/-- Effect of `_stop_current_segment` without a live subprocess: nothing
happens. -/
theorem stop_current_segment_none {s : ScreenRecorder} {w : World}
    (hp : s.current_segment_proc = none) (k : Bool) :
    stop_current_segment k s w = (s, w, []) := by
  simp [stop_current_segment, hp]

/-- Case analysis of `_start_segment`: either geometry resolution fails
and only a dialog appears, or a fresh subprocess records
`segment_{len(segments)+1}.mp4`. -/
theorem start_segment_spec (env : StartEnv) (s : ScreenRecorder) (w : World) :
    (∃ t, start_segment env s w = (s, w, [Event.dialog t])) ∨
    (∃ rd : String × String, start_segment env s w =
      ({ s with
          resolution_value := some rd.1,
          current_segment_file := some (segFile s.output_dir (s.segments.length + 1)),
          current_segment_proc := some w.nextPid },
       { nextPid := w.nextPid + 1, active := w.active ++ [w.nextPid] },
       [Event.launched (s.segments.length + 1)
          (segFile s.output_dir (s.segments.length + 1)) w.nextPid
          (ffmpegSegmentCmd rd.1 rd.2 (quality_settings env.quality_var).1
            (quality_settings env.quality_var).2 (audio_devices.headD "")
            (segFile s.output_dir (s.segments.length + 1)))])) := by
  cases h : resolve_capture env s.selected_window_geometry with
  | error t =>
    left
    exact ⟨t, by simp [start_segment, h]⟩
  | ok rd =>
    right
    exact ⟨rd, by simp [start_segment, h, popen]⟩

/-- Length of the accumulated segment list when no segment is in
flight. -/
theorem seg_len_of_shape {s : ScreenRecorder} {n : Nat}
    (hf : s.current_segment_file = none)
    (h : s.segments ++ s.current_segment_file.toList
        = (List.range' 1 n).map (segFile s.output_dir)) :
    s.segments.length = n := by
  have := congrArg List.length h
  simpa [hf] using this

theorem shape_snoc {d : String} {n : Nat} {l : List String}
    (h : l = (List.range' 1 n).map (segFile d)) :
    l ++ [segFile d (n + 1)] = (List.range' 1 (n + 1)).map (segFile d) := by
  subst h
  rw [List.range'_1_concat]
  simp [Nat.add_comm]

/-- The recorder after `_stop_current_segment` found a live subprocess:
current file appended, both handles cleared. -/
def stoppedRec (s : ScreenRecorder) : ScreenRecorder :=
  { s with
      segments := s.segments ++ [s.current_segment_file.getD "None"],
      current_segment_proc := none,
      current_segment_file := none }

/-- The recorder after the session-reset assignments at the top of
`toggle_recording`'s start branch. -/
def startingRec (s : ScreenRecorder) (now : Nat) : ScreenRecorder :=
  { s with segments := [], paused := false, start_time := some now }

/-- `_combine_segments` never modifies the recorder state (only labels and
the file system). -/
theorem combine_segments_fst (u : Option String) (c : Bool)
    (s : ScreenRecorder) (fs : List String) :
    (combine_segments u c s fs).1 = s := by
  unfold combine_segments
  split <;> rfl

theorem stepAct_record_start (env : StartEnv) (k : Bool) (u : Option String)
    (c : Bool) (σ : SysState) (hr : σ.recorder.is_recording = false) :
    stepAct (Act.record env k u c) σ =
      (⟨{ (start_segment env (startingRec σ.recorder env.now) σ.world).1 with
            is_recording := true },
        (start_segment env (startingRec σ.recorder env.now) σ.world).2.1, σ.fs⟩,
       (start_segment env (startingRec σ.recorder env.now) σ.world).2.2) := by
  simp [stepAct, toggle_recording, hr, startingRec]

theorem stepAct_record_stop_some (env : StartEnv) (k : Bool) (u : Option String)
    (c : Bool) (σ : SysState) {p : Nat} (hr : σ.recorder.is_recording = true)
    (hp : σ.recorder.current_segment_proc = some p) :
    stepAct (Act.record env k u c) σ =
      (⟨{ stoppedRec σ.recorder with is_recording := false },
        { σ.world with active := σ.world.active.erase p },
        (combine_segments u c { stoppedRec σ.recorder with is_recording := false }
          σ.fs).2.1⟩,
       Event.stopped p segmentStopTimeoutSeconds k ::
         (combine_segments u c { stoppedRec σ.recorder with is_recording := false }
           σ.fs).2.2) := by
  simp [stepAct, toggle_recording, hr, hp, stop_current_segment_some hp k,
    stoppedRec, combine_segments_fst]

theorem stepAct_record_stop_none (env : StartEnv) (k : Bool) (u : Option String)
    (c : Bool) (σ : SysState) (hr : σ.recorder.is_recording = true)
    (hp : σ.recorder.current_segment_proc = none) :
    stepAct (Act.record env k u c) σ =
      (⟨{ σ.recorder with is_recording := false },
        σ.world,
        (combine_segments u c { σ.recorder with is_recording := false } σ.fs).2.1⟩,
       (combine_segments u c { σ.recorder with is_recording := false } σ.fs).2.2) := by
  simp [stepAct, toggle_recording, hr, hp, combine_segments_fst]

theorem stepAct_pause_idle (env : StartEnv) (k : Bool) (σ : SysState)
    (hr : σ.recorder.is_recording = false) :
    stepAct (Act.pauseBtn env k) σ = (σ, []) := by
  simp [stepAct, toggle_pause, hr]

theorem stepAct_pause_pause_some (env : StartEnv) (k : Bool) (σ : SysState)
    {p : Nat} (hr : σ.recorder.is_recording = true)
    (hpd : σ.recorder.paused = false)
    (hp : σ.recorder.current_segment_proc = some p) :
    stepAct (Act.pauseBtn env k) σ =
      (⟨{ stoppedRec σ.recorder with paused := true },
        { σ.world with active := σ.world.active.erase p }, σ.fs⟩,
       [Event.stopped p segmentStopTimeoutSeconds k]) := by
  simp [stepAct, toggle_pause, hr, hpd, hp, stop_current_segment_some hp k,
    stoppedRec]

theorem stepAct_pause_pause_none (env : StartEnv) (k : Bool) (σ : SysState)
    (hr : σ.recorder.is_recording = true) (hpd : σ.recorder.paused = false)
    (hp : σ.recorder.current_segment_proc = none) :
    stepAct (Act.pauseBtn env k) σ =
      (⟨{ σ.recorder with paused := true }, σ.world, σ.fs⟩, []) := by
  simp [stepAct, toggle_pause, hr, hpd, hp]

theorem stepAct_pause_resume (env : StartEnv) (k : Bool) (σ : SysState)
    (hr : σ.recorder.is_recording = true) (hpd : σ.recorder.paused = true) :
    stepAct (Act.pauseBtn env k) σ =
      (⟨{ (start_segment env σ.recorder σ.world).1 with paused := false },
        (start_segment env σ.recorder σ.world).2.1, σ.fs⟩,
       (start_segment env σ.recorder σ.world).2.2) := by
  simp [stepAct, toggle_pause, hr, hpd]

theorem file_none_of_proc_none {s : ScreenRecorder}
    (hpf : s.current_segment_proc.isSome = s.current_segment_file.isSome)
    (hp : s.current_segment_proc = none) : s.current_segment_file = none := by
  cases hfe : s.current_segment_file with
  | none => rfl
  | some f => rw [hp, hfe] at hpf; cases hpf

theorem inv_stepAct (a : Act) (σ : SysState) (h : Inv σ) : Inv (stepAct a σ).1 := by
  obtain ⟨hpf, hpn, hin, hap, han, n, hshape⟩ := h
  cases a with
  | selectWindow g =>
    exact ⟨hpf, hpn, hin, hap, han, n, hshape⟩
  | record env k user created =>
    by_cases hr : σ.recorder.is_recording = true
    · cases hp : σ.recorder.current_segment_proc with
      | some q =>
        obtain ⟨f, hf⟩ := Option.isSome_iff_exists.mp (hpf ▸ (hp ▸ rfl : σ.recorder.current_segment_proc.isSome = true))
        have hact := hap q hp
        rw [stepAct_record_stop_some env k user created σ hr hp]
        refine ⟨rfl, fun _ => rfl, fun _ => rfl,
          fun q' hq => Option.noConfusion hq,
          fun _ => by simp [hact, List.erase_cons_head],
          ⟨n, by simpa [stoppedRec, hf] using hshape⟩⟩
      | none =>
        have hf := file_none_of_proc_none hpf hp
        rw [stepAct_record_stop_none env k user created σ hr hp]
        exact ⟨hpf, fun _ => hp, fun _ => hp, fun q hq => hap q hq,
          fun _ => han hp, ⟨n, hshape⟩⟩
    · rw [Bool.not_eq_true] at hr
      have hp := hin hr
      have hf := file_none_of_proc_none hpf hp
      have hwa := han hp
      rw [stepAct_record_start env k user created σ hr]
      rcases start_segment_spec env (startingRec σ.recorder env.now) σ.world with
        ⟨t, hss⟩ | ⟨rd, hss⟩ <;> rw [hss]
      · exact ⟨hpf, fun _ => hp, fun _ => hp,
          fun q hq => Option.noConfusion (hp ▸ hq),
          fun _ => hwa, ⟨0, by simp [startingRec, hf]⟩⟩
      · refine ⟨rfl, ?_, ?_, ?_, ?_, ?_⟩
        · intro hcon
          simp [startingRec] at hcon
        · intro hcon
          simp at hcon
        · intro q hq
          simp only [Option.some.injEq] at hq
          simp [hwa, hq]
        · intro hcon
          simp at hcon
        · exact ⟨1, by simp [startingRec, segFile]⟩
  | pauseBtn env k =>
    by_cases hr : σ.recorder.is_recording = true
    · by_cases hpd : σ.recorder.paused = true
      · have hp := hpn hpd
        have hf := file_none_of_proc_none hpf hp
        have hwa := han hp
        have hlen := seg_len_of_shape hf hshape
        rw [stepAct_pause_resume env k σ hr hpd]
        rcases start_segment_spec env σ.recorder σ.world with ⟨t, hss⟩ | ⟨rd, hss⟩ <;>
          rw [hss]
        · exact ⟨hpf, fun _ => hp, fun _ => hp,
            fun q hq => Option.noConfusion (hp ▸ hq),
            fun _ => hwa, ⟨n, hshape⟩⟩
        · refine ⟨rfl, ?_, ?_, ?_, ?_, ?_⟩
          · intro hcon
            simp at hcon
          · intro hcon
            simp [hr] at hcon
          · intro q hq
            simp only [Option.some.injEq] at hq
            simp [hwa, hq]
          · intro hcon
            simp at hcon
          · refine ⟨n + 1, ?_⟩
            have hsh : σ.recorder.segments
                = (List.range' 1 n).map (segFile σ.recorder.output_dir) := by
              simpa [hf] using hshape
            simpa [hlen] using shape_snoc hsh
      · rw [Bool.not_eq_true] at hpd
        cases hp : σ.recorder.current_segment_proc with
        | some q =>
          obtain ⟨f, hf⟩ := Option.isSome_iff_exists.mp (hpf ▸ (hp ▸ rfl : σ.recorder.current_segment_proc.isSome = true))
          have hact := hap q hp
          rw [stepAct_pause_pause_some env k σ hr hpd hp]
          refine ⟨rfl, fun _ => rfl, fun _ => rfl,
            fun q' hq => Option.noConfusion hq,
            fun _ => by simp [hact, List.erase_cons_head],
            ⟨n, by simpa [stoppedRec, hf] using hshape⟩⟩
        | none =>
          rw [stepAct_pause_pause_none env k σ hr hpd hp]
          exact ⟨hpf, fun _ => hp, fun _ => hp, fun q hq => hap q hq,
            fun hq => han hq, ⟨n, hshape⟩⟩
    · rw [Bool.not_eq_true] at hr
      rw [stepAct_pause_idle env k σ hr]
      exact ⟨hpf, hpn, hin, hap, han, ⟨n, hshape⟩⟩

theorem inv_runActs (acts : List Act) (σ : SysState) (h : Inv σ) :
    Inv (runActs acts σ).1 := by
  induction acts generalizing σ with
  | nil => exact h
  | cons a rest ih =>
    simpa [runActs] using ih (stepAct a σ).1 (inv_stepAct a σ h)



/-! ### Trace helper lemmas and concrete environments -/

theorem launchedFiles_combine (u : Option String) (c : Bool)
    (s : ScreenRecorder) (fs : List String) :
    launchedFiles (combine_segments u c s fs).2.2 = [] := by
  unfold combine_segments
  split <;> rfl

theorem combineArgs_combine (u : Option String) (c : Bool)
    (s : ScreenRecorder) (fs : List String) :
    combineArgs (combine_segments u c s fs).2.2 = [s.segments] := by
  unfold combine_segments
  split <;> rfl

theorem launchedFiles_stopped_cons (p ts : Nat) (k : Bool) (evs : List Event) :
    launchedFiles (Event.stopped p ts k :: evs) = launchedFiles evs := rfl

theorem combineArgs_stopped_cons (p ts : Nat) (k : Bool) (evs : List Event) :
    combineArgs (Event.stopped p ts k :: evs) = combineArgs evs := rfl

theorem active_len_le_one {s : ScreenRecorder} {w : World} (h : RInv s w) :
    w.active.length ≤ 1 := by
  cases hp : s.current_segment_proc with
  | none => simp [h.active_none hp]
  | some p => simp [h.active_proc p hp]

/-- A concrete environment: full-desktop capture, medium quality. -/
def env_desktop : StartEnv :=
  ⟨"Entire Desktop", "Medium", 1920, 1080, ":0.0", fun _ => none, 0⟩

/-- A concrete environment: window capture with no window ever picked. -/
def env_window_unselected : StartEnv :=
  ⟨"Window", "Medium", 1920, 1080, ":0.0", fun _ => none, 0⟩

/-- A concrete environment: monitor capture where xrandr reports no
matching connected output. -/
def env_monitor_missing : StartEnv :=
  ⟨"eDP-1", "Medium", 1920, 1080, ":0.0", fun _ => none, 0⟩

/-! ### Claims -/

/-- C1.  The claim says a failed geometry resolution at `start()` leaves
the session Idle with the state unchanged.  The code disagrees: the error
dialog is shown and no subprocess is launched and no segment created, but
`toggle_recording` still sets `is_recording = True` (and has already
cleared the segment list, reset `paused` and taken a new start time), so
the session leaves Idle and shows "Recording" with nothing being
captured.  Evaluated here on all three failure modes: no window selected,
monitor not found, and window geometry that does not parse as four
integers. -/
theorem C1_start_failure_still_sets_recording :
    ((toggle_recording env_window_unselected false none false
        (initRecorder "home") ⟨0, []⟩ []).1.is_recording = true ∧
      (toggle_recording env_window_unselected false none false
        (initRecorder "home") ⟨0, []⟩ []).1.current_segment_proc = none ∧
      (toggle_recording env_window_unselected false none false
        (initRecorder "home") ⟨0, []⟩ []).1.current_segment_file = none ∧
      (toggle_recording env_window_unselected false none false
        (initRecorder "home") ⟨0, []⟩ []).1.segments = [] ∧
      (toggle_recording env_window_unselected false none false
        (initRecorder "home") ⟨0, []⟩ []).2.1.active = [] ∧
      (toggle_recording env_window_unselected false none false
        (initRecorder "home") ⟨0, []⟩ []).2.2.2 =
        [Event.dialog "Window Not Selected"]) ∧
    ((toggle_recording env_monitor_missing false none false
        (initRecorder "home") ⟨0, []⟩ []).1.is_recording = true ∧
      (toggle_recording env_monitor_missing false none false
        (initRecorder "home") ⟨0, []⟩ []).2.2.2 =
        [Event.dialog "Monitor Error"]) ∧
    ((toggle_recording env_window_unselected false none false
        { initRecorder "home" with selected_window_geometry := some "1,2,3" }
        ⟨0, []⟩ []).1.is_recording = true ∧
      (toggle_recording env_window_unselected false none false
        { initRecorder "home" with selected_window_geometry := some "1,2,3" }
        ⟨0, []⟩ []).2.2.2 = [Event.dialog "Window Geometry Error"]) := by
  decide

theorem combine_segments_fs_shape (u : Option String) (c : Bool)
    (s : ScreenRecorder) (fs : List String) (h : s.segments ≠ []) :
    ∃ fs2, (combine_segments u c s fs).2.1 =
      fsRemove (s.output_dir ++ "/" ++ "segments.txt")
        (deleteSegmentFiles s.segments fs2) := by
  unfold combine_segments
  have he : s.segments.isEmpty = false := by
    cases hs : s.segments with
    | nil => exact absurd hs h
    | cons a l => rfl
  simp only [he, Bool.false_eq_true, if_false]
  exact ⟨_, rfl⟩

/-- C2.  For every non-empty segment list, `_combine_segments` deletes
every segment file and the manifest from the output directory after
running the external concat subprocess, whether or not that subprocess
produced its output (`c` ranges over both): the deletion loop and the
`os.remove` of the manifest are unconditional.  The event list also
records that the concat subprocess was invoked before the deletion. -/
theorem C2_combine_deletes_segments_unconditionally (u : Option String)
    (c : Bool) (s : ScreenRecorder) (fs : List String)
    (h : s.segments ≠ []) :
    (∀ seg ∈ s.segments, seg ∉ (combine_segments u c s fs).2.1) ∧
    (s.output_dir ++ "/" ++ "segments.txt") ∉ (combine_segments u c s fs).2.1 ∧
    (∃ cmd, (combine_segments u c s fs).2.2 =
      [Event.combineInvoked s.segments,
       Event.manifestWritten (s.output_dir ++ "/" ++ "segments.txt") s.segments,
       Event.ranConcat cmd c]) := by
  obtain ⟨fs2, hfs⟩ := combine_segments_fs_shape u c s fs h
  refine ⟨?_, ?_, ?_⟩
  · intro seg hseg
    rw [hfs]
    intro hmem
    exact not_mem_deleteSegmentFiles s.segments fs2 seg hseg (mem_fsRemove.mp hmem).1
  · rw [hfs]
    exact not_mem_fsRemove_self _ _
  · unfold combine_segments
    have he : s.segments.isEmpty = false := by
      cases hs : s.segments with
      | nil => exact absurd hs h
      | cons a l => rfl
    simp only [he, Bool.false_eq_true, if_false]
    exact ⟨_, rfl⟩

theorem C2_witness :
    (["D" ++ "/" ++ "segment_1.mp4"] : List String) ≠ [] ∧
    ((∀ seg ∈ (["D" ++ "/" ++ "segment_1.mp4"] : List String),
        seg ∉ (combine_segments none false
          { initRecorder "D" with
            output_dir := "D"
            segments := ["D" ++ "/" ++ "segment_1.mp4"] }
          ["D" ++ "/" ++ "segment_1.mp4"]).2.1) ∧
      ("D" ++ "/" ++ "segments.txt") ∉ (combine_segments none false
          { initRecorder "D" with
            output_dir := "D"
            segments := ["D" ++ "/" ++ "segment_1.mp4"] }
          ["D" ++ "/" ++ "segment_1.mp4"]).2.1 ∧
      (∃ cmd, (combine_segments none false
          { initRecorder "D" with
            output_dir := "D"
            segments := ["D" ++ "/" ++ "segment_1.mp4"] }
          ["D" ++ "/" ++ "segment_1.mp4"]).2.2 =
        [Event.combineInvoked ["D" ++ "/" ++ "segment_1.mp4"],
         Event.manifestWritten ("D" ++ "/" ++ "segments.txt")
           ["D" ++ "/" ++ "segment_1.mp4"],
         Event.ranConcat cmd false])) :=
  ⟨by decide,
   C2_combine_deletes_segments_unconditionally none false
     { initRecorder "D" with
       output_dir := "D"
       segments := ["D" ++ "/" ++ "segment_1.mp4"] }
     ["D" ++ "/" ++ "segment_1.mp4"] (by decide)⟩

/-- C5.  `_stop_current_segment` with a live subprocess: it terminates
the process, waits with the fixed 5-second timeout
(`segmentStopTimeoutSeconds = 5`), and whether the wait succeeded
(`k = false`) or `TimeoutExpired` forced a `kill()` (`k = true`), the
segment's file is appended to the session's segment list and the handles
are cleared.  The function is total, so the timeout/kill path raises
nothing, and `k` is universally quantified, so neither path skips the
append. -/
theorem C5_stop_appends_even_after_kill (k : Bool) (s : ScreenRecorder)
    (w : World) (p : Nat) (f : String)
    (hp : s.current_segment_proc = some p)
    (hf : s.current_segment_file = some f) :
    (stop_current_segment k s w).1.segments = s.segments ++ [f] ∧
    (stop_current_segment k s w).1.current_segment_proc = none ∧
    (stop_current_segment k s w).1.current_segment_file = none ∧
    (stop_current_segment k s w).2.2 =
      [Event.stopped p segmentStopTimeoutSeconds k] := by
  rw [stop_current_segment_some hp k]
  simp [hf]

theorem C5_witness :
    ({ initRecorder "home" with
        current_segment_proc := some 0
        current_segment_file := some "f" } : ScreenRecorder).current_segment_proc
        = some 0 ∧
    ({ initRecorder "home" with
        current_segment_proc := some 0
        current_segment_file := some "f" } : ScreenRecorder).current_segment_file
        = some "f" ∧
    ((stop_current_segment true
        { initRecorder "home" with
          current_segment_proc := some 0
          current_segment_file := some "f" } ⟨1, [0]⟩).1.segments = [] ++ ["f"] ∧
      (stop_current_segment true
        { initRecorder "home" with
          current_segment_proc := some 0
          current_segment_file := some "f" } ⟨1, [0]⟩).1.current_segment_proc = none ∧
      (stop_current_segment true
        { initRecorder "home" with
          current_segment_proc := some 0
          current_segment_file := some "f" } ⟨1, [0]⟩).1.current_segment_file = none ∧
      (stop_current_segment true
        { initRecorder "home" with
          current_segment_proc := some 0
          current_segment_file := some "f" } ⟨1, [0]⟩).2.2 =
        [Event.stopped 0 segmentStopTimeoutSeconds true]) :=
  ⟨rfl, rfl,
   C5_stop_appends_even_after_kill true
     { initRecorder "home" with
       current_segment_proc := some 0
       current_segment_file := some "f" } ⟨1, [0]⟩ 0 "f" rfl rfl⟩

/-- C6.  When `stop()` finds an empty segment list (no subprocess running
and nothing accumulated), `_combine_segments` reports "No Segments" via a
dialog and returns: the file system is untouched (no manifest, no output
file), no subprocess is touched, the call raises nothing, and the session
ends not recording (Idle). -/
theorem C6_empty_segment_list_dialog (env : StartEnv) (k : Bool)
    (u : Option String) (c : Bool) (s : ScreenRecorder) (w : World)
    (fs : List String) (hr : s.is_recording = true) (hs : s.segments = [])
    (hp : s.current_segment_proc = none) :
    (toggle_recording env k u c s w fs).1.is_recording = false ∧
    (toggle_recording env k u c s w fs).2.1 = w ∧
    (toggle_recording env k u c s w fs).2.2.1 = fs ∧
    (toggle_recording env k u c s w fs).2.2.2 =
      [Event.combineInvoked [], Event.dialog "No Segments"] := by
  simp [toggle_recording, hr, hp, combine_segments, hs]

theorem C6_witness :
    ({ initRecorder "home" with is_recording := true } : ScreenRecorder).is_recording
      = true ∧
    ({ initRecorder "home" with is_recording := true } : ScreenRecorder).segments = [] ∧
    ({ initRecorder "home" with is_recording := true }
      : ScreenRecorder).current_segment_proc = none ∧
    ((toggle_recording env_desktop false none false
        { initRecorder "home" with is_recording := true } ⟨0, []⟩
        ["x"]).1.is_recording = false ∧
      (toggle_recording env_desktop false none false
        { initRecorder "home" with is_recording := true } ⟨0, []⟩ ["x"]).2.1
        = ⟨0, []⟩ ∧
      (toggle_recording env_desktop false none false
        { initRecorder "home" with is_recording := true } ⟨0, []⟩ ["x"]).2.2.1
        = ["x"] ∧
      (toggle_recording env_desktop false none false
        { initRecorder "home" with is_recording := true } ⟨0, []⟩ ["x"]).2.2.2 =
        [Event.combineInvoked [], Event.dialog "No Segments"]) :=
  ⟨rfl, rfl, rfl,
   C6_empty_segment_list_dialog env_desktop false none false
     { initRecorder "home" with is_recording := true } ⟨0, []⟩ ["x"] rfl rfl rfl⟩

/-- C8.  The pause operation invoked while not recording, and the resume
operation invoked while recording-but-not-paused, do nothing: same
recorder state, same process world (so no subprocess launched), no
events.  `toggle_pause` is exactly the dispatch between the two (see
`toggle_pause_dispatch`): its leading `if not self.is_recording: return`
guard makes both operations no-ops in Idle, and its branch on
`self.paused` means the resume path never runs while Recording. -/
theorem C8_pause_resume_noop :
    (∀ (k : Bool) (s : ScreenRecorder) (w : World),
      s.is_recording = false → pause_op k s w = (s, w, [])) ∧
    (∀ (env : StartEnv) (s : ScreenRecorder) (w : World),
      s.is_recording = true → s.paused = false → resume_op env s w = (s, w, [])) := by
  constructor
  · intro k s w h
    simp [pause_op, h]
  · intro env s w hr hpd
    simp [resume_op, hr, hpd]

theorem C8_witness :
    ((initRecorder "home").is_recording = false ∧
      pause_op false (initRecorder "home") ⟨0, []⟩ = (initRecorder "home", ⟨0, []⟩, [])) ∧
    (({ initRecorder "home" with is_recording := true } : ScreenRecorder).is_recording
        = true ∧
      ({ initRecorder "home" with is_recording := true } : ScreenRecorder).paused
        = false ∧
      resume_op env_desktop { initRecorder "home" with is_recording := true } ⟨0, []⟩
        = ({ initRecorder "home" with is_recording := true }, ⟨0, []⟩, [])) :=
  ⟨⟨rfl, C8_pause_resume_noop.1 false (initRecorder "home") ⟨0, []⟩ rfl⟩,
   ⟨rfl, rfl,
    C8_pause_resume_noop.2 env_desktop
      { initRecorder "home" with is_recording := true } ⟨0, []⟩ rfl rfl⟩⟩

/-- C10.  `_stop_current_segment` with no live subprocess leaves the
entire state unchanged (in particular appends nothing), and a second
consecutive call is always a no-op because the first clears the handle:
stopping is idempotent. -/
theorem C10_stop_idempotent :
    (∀ (k : Bool) (s : ScreenRecorder) (w : World),
      s.current_segment_proc = none → stop_current_segment k s w = (s, w, [])) ∧
    (∀ (k k2 : Bool) (s : ScreenRecorder) (w : World),
      stop_current_segment k2 (stop_current_segment k s w).1
          (stop_current_segment k s w).2.1
        = ((stop_current_segment k s w).1, (stop_current_segment k s w).2.1, [])) := by
  constructor
  · intro k s w h
    exact stop_current_segment_none h k
  · intro k k2 s w
    cases hp : s.current_segment_proc with
    | none =>
      rw [stop_current_segment_none hp k]
      exact stop_current_segment_none hp k2
    | some p =>
      rw [stop_current_segment_some hp k]
      exact stop_current_segment_none rfl k2

theorem C10_witness :
    (initRecorder "home").current_segment_proc = none ∧
    stop_current_segment false (initRecorder "home") ⟨0, []⟩
      = (initRecorder "home", ⟨0, []⟩, []) :=
  ⟨rfl, C10_stop_idempotent.1 false (initRecorder "home") ⟨0, []⟩ rfl⟩

/-- C9.  In every state reachable from the freshly constructed recorder by
any sequence of button presses, at most one capture subprocess is alive;
a step only launches a new subprocess when the current handle is empty;
and stopping always clears the handle. -/
theorem C9_at_most_one_active_subprocess :
    (∀ (home : String) (fs0 : List String) (acts : List Act),
      (runActs acts (initSys home fs0)).1.world.active.length ≤ 1) ∧
    (∀ (home : String) (fs0 : List String) (acts : List Act) (a : Act),
      launchedFiles (stepAct a (runActs acts (initSys home fs0)).1).2 ≠ [] →
      (runActs acts (initSys home fs0)).1.recorder.current_segment_proc = none) ∧
    (∀ (k : Bool) (s : ScreenRecorder) (w : World),
      (stop_current_segment k s w).1.current_segment_proc = none) := by
  refine ⟨?_, ?_, ?_⟩
  · intro home fs0 acts
    exact active_len_le_one (inv_runActs acts _ (inv_initSys home fs0))
  · intro home fs0 acts a hlf
    have hInv : Inv (runActs acts (initSys home fs0)).1 :=
      inv_runActs acts _ (inv_initSys home fs0)
    by_contra hne
    obtain ⟨p, hp⟩ : ∃ p,
        (runActs acts (initSys home fs0)).1.recorder.current_segment_proc = some p := by
      cases hq : (runActs acts (initSys home fs0)).1.recorder.current_segment_proc with
      | none => exact absurd hq hne
      | some p => exact ⟨p, rfl⟩
    apply hlf
    cases a with
    | selectWindow g => rfl
    | record env k user created =>
      by_cases hr : (runActs acts (initSys home fs0)).1.recorder.is_recording = true
      · rw [stepAct_record_stop_some env k user created _ hr hp,
          launchedFiles_stopped_cons, launchedFiles_combine]
      · rw [Bool.not_eq_true] at hr
        exact absurd hp (by simp [hInv.idle_no_proc hr])
    | pauseBtn env k =>
      by_cases hr : (runActs acts (initSys home fs0)).1.recorder.is_recording = true
      · by_cases hpd : (runActs acts (initSys home fs0)).1.recorder.paused = true
        · exact absurd hp (by simp [hInv.paused_no_proc hpd])
        · rw [Bool.not_eq_true] at hpd
          rw [stepAct_pause_pause_some env k _ hr hpd hp]
          rfl
      · rw [Bool.not_eq_true] at hr
        rw [stepAct_pause_idle env k _ hr]
        rfl
  · intro k s w
    cases hp : s.current_segment_proc with
    | none => rw [stop_current_segment_none hp k]; exact hp
    | some p => rw [stop_current_segment_some hp k]

theorem C9_witness :
    launchedFiles
        (stepAct (Act.record env_desktop false none false)
          (runActs [] (initSys "home" [])).1).2 ≠ [] ∧
    (runActs [] (initSys "home" [])).1.recorder.current_segment_proc = none ∧
    (runActs [] (initSys "home" [])).1.world.active.length ≤ 1 :=
  ⟨by decide,
   C9_at_most_one_active_subprocess.2.1 "home" [] []
     (Act.record env_desktop false none false) (by decide),
   C9_at_most_one_active_subprocess.1 "home" [] []⟩

/-- C7, as stated, is false: the code's `N` is the *count* of matching
files plus one, which need not be an unused index.  With the three
pre-existing matching files `screenrecording1.mp4`, `screenrecording2.mp4`
and `screenrecording4.mp4` the computed default name is
`screenrecording4.mp4`, which already exists. -/
theorem C7_counterexample :
    default_recording_name
        ["screenrecording1.mp4", "screenrecording2.mp4", "screenrecording4.mp4"]
      = "screenrecording4.mp4" ∧
    "screenrecording4.mp4" ∈
      (["screenrecording1.mp4", "screenrecording2.mp4", "screenrecording4.mp4"]
        : List String) := by
  decide

/-- C7 (amended).  The default name is always
`screenrecording<count of matching files + 1>.mp4`; and whenever the
files of the listing that match the filter (name starts with
`screenrecording` and ends with `.mp4`) are exactly the gapless run
`screenrecording1.mp4 … screenrecording<k>.mp4` — whatever other,
non-matching files (such as `segments.txt` or `segment_*.mp4`) the
directory contains — the computed index `k+1` is unused: the produced
name collides with nothing in the listing. -/
theorem C7_default_name_is_count_plus_one :
    (∀ listing : List String,
      default_recording_name listing =
        screcName ((listing.filter fun f =>
          pyStartswith f "screenrecording" && pyEndswith f ".mp4").length + 1)) ∧
    (∀ (kk : Nat) (listing : List String),
      (listing.filter fun f =>
          pyStartswith f "screenrecording" && pyEndswith f ".mp4")
        = (List.range' 1 kk).map screcName →
      default_recording_name listing = screcName (kk + 1) ∧
      default_recording_name listing ∉ listing) := by
  constructor
  · intro listing
    rfl
  · intro kk listing hfil
    have hname : default_recording_name listing = screcName (kk + 1) := by
      show screcName _ = screcName _
      rw [hfil]
      simp
    refine ⟨hname, ?_⟩
    rw [hname]
    intro hmem
    have hmemf : screcName (kk + 1) ∈ listing.filter
        (fun f => pyStartswith f "screenrecording" && pyEndswith f ".mp4") :=
      List.mem_filter.mpr
        ⟨hmem, by simp [screcName_startswith, screcName_endswith]⟩
    rw [hfil] at hmemf
    obtain ⟨i, hi, heq⟩ := List.mem_map.mp hmemf
    have : i = kk + 1 := screcName_inj heq
    subst this
    have := List.mem_range'.mp hi
    omega

theorem C7_witness :
    ((["segments.txt", "screenrecording1.mp4", "screenrecording2.mp4",
        "screenrecording3.mp4", "segment_1.mp4"] : List String).filter
        (fun f => pyStartswith f "screenrecording" && pyEndswith f ".mp4")
      = (List.range' 1 3).map screcName) ∧
    default_recording_name
        ["segments.txt", "screenrecording1.mp4", "screenrecording2.mp4",
         "screenrecording3.mp4", "segment_1.mp4"]
      = screcName 4 ∧
    default_recording_name
        ["segments.txt", "screenrecording1.mp4", "screenrecording2.mp4",
         "screenrecording3.mp4", "segment_1.mp4"]
      ∉ (["segments.txt", "screenrecording1.mp4", "screenrecording2.mp4",
          "screenrecording3.mp4", "segment_1.mp4"] : List String) :=
  ⟨by decide,
   (C7_default_name_is_count_plus_one.2 3
     ["segments.txt", "screenrecording1.mp4", "screenrecording2.mp4",
      "screenrecording3.mp4", "segment_1.mp4"]
     (by decide)).1,
   (C7_default_name_is_count_plus_one.2 3
     ["segments.txt", "screenrecording1.mp4", "screenrecording2.mp4",
      "screenrecording3.mp4", "segment_1.mp4"]
     (by decide)).2⟩

/-! ### Session traces: one start, any pauses/resumes, one stop -/

theorem launchedFiles_append (l1 l2 : List Event) :
    launchedFiles (l1 ++ l2) = launchedFiles l1 ++ launchedFiles l2 := by
  simp [launchedFiles, List.filterMap_append]

theorem combineArgs_append (l1 l2 : List Event) :
    combineArgs (l1 ++ l2) = combineArgs l1 ++ combineArgs l2 := by
  simp [combineArgs, List.filterMap_append]

/-- Actions that can occur strictly between a session's `start()` and its
`stop()`: pause-button presses and window re-selection, but not the
record button. -/
def isMidAct : Act → Prop
  | Act.record _ _ _ _ => False
  | Act.pauseBtn _ _ => True
  | Act.selectWindow _ => True

/-- Invariant of a running session whose `n` segments started so far are
`segment_1.mp4 … segment_n.mp4` of directory `d` (the in-flight one, if
any, included). -/
structure SessInv (d : String) (n : Nat) (σ : SysState) : Prop where
  inv : Inv σ
  dir : σ.recorder.output_dir = d
  recording : σ.recorder.is_recording = true
  shape : σ.recorder.segments ++ σ.recorder.current_segment_file.toList
      = (List.range' 1 n).map (segFile d)

theorem start_segment_segments (env : StartEnv) (s : ScreenRecorder) (w : World) :
    (start_segment env s w).1.segments = s.segments := by
  rcases start_segment_spec env s w with ⟨t, hss⟩ | ⟨rd, hss⟩ <;> rw [hss]

theorem session_start (env : StartEnv) (k : Bool) (u : Option String) (c : Bool)
    (σ : SysState) (h : Inv σ) (hr : σ.recorder.is_recording = false) :
    ∃ n, SessInv σ.recorder.output_dir n (stepAct (Act.record env k u c) σ).1 ∧
      launchedFiles (stepAct (Act.record env k u c) σ).2
        = (List.range' 1 n).map (segFile σ.recorder.output_dir) := by
  have hInv2 := inv_stepAct (Act.record env k u c) σ h
  have hp := h.idle_no_proc hr
  have hf := file_none_of_proc_none h.proc_file hp
  rw [stepAct_record_start env k u c σ hr] at hInv2 ⊢
  rcases start_segment_spec env (startingRec σ.recorder env.now) σ.world with
    ⟨t, hss⟩ | ⟨rd, hss⟩ <;> rw [hss] at hInv2 ⊢
  · exact ⟨0, ⟨hInv2, rfl, rfl, by simp [startingRec, hf]⟩, rfl⟩
  · refine ⟨1, ⟨hInv2, rfl, rfl, ?_⟩, ?_⟩
    · simp [startingRec]
    · simp [launchedFiles, startingRec]

theorem session_pause_step (env : StartEnv) (k : Bool) {d : String} {n : Nat}
    (σ : SysState) (h : SessInv d n σ) :
    ∃ m, SessInv d m (stepAct (Act.pauseBtn env k) σ).1 ∧
      (List.range' 1 n).map (segFile d)
          ++ launchedFiles (stepAct (Act.pauseBtn env k) σ).2
        = (List.range' 1 m).map (segFile d) := by
  obtain ⟨hInv, hdir, hrec, hshape⟩ := h
  have hInv2 := inv_stepAct (Act.pauseBtn env k) σ hInv
  by_cases hpd : σ.recorder.paused = true
  · have hp := hInv.paused_no_proc hpd
    have hf := file_none_of_proc_none hInv.proc_file hp
    have hsh : σ.recorder.segments = (List.range' 1 n).map (segFile d) := by
      simpa [hf] using hshape
    have hlen : σ.recorder.segments.length = n := by
      rw [hsh]
      simp
    rw [stepAct_pause_resume env k σ hrec hpd] at hInv2 ⊢
    rcases start_segment_spec env σ.recorder σ.world with ⟨t, hss⟩ | ⟨rd, hss⟩ <;>
      rw [hss] at hInv2 ⊢
    · exact ⟨n, ⟨hInv2, hdir, hrec, hshape⟩, by simp [launchedFiles, hsh]⟩
    · refine ⟨n + 1, ⟨hInv2, hdir, hrec, ?_⟩, ?_⟩
      · simpa [hlen, hdir, hsh] using shape_snoc hsh
      · simpa [launchedFiles, hlen, hdir, hsh] using shape_snoc hsh
  · rw [Bool.not_eq_true] at hpd
    cases hp : σ.recorder.current_segment_proc with
    | some p =>
      obtain ⟨f, hf⟩ := Option.isSome_iff_exists.mp
        (hInv.proc_file ▸ (hp ▸ rfl : σ.recorder.current_segment_proc.isSome = true))
      rw [stepAct_pause_pause_some env k σ hrec hpd hp] at hInv2 ⊢
      refine ⟨n, ⟨hInv2, hdir, hrec, ?_⟩, by simp [launchedFiles]⟩
      simpa [stoppedRec, hf] using hshape
    | none =>
      rw [stepAct_pause_pause_none env k σ hrec hpd hp] at hInv2 ⊢
      exact ⟨n, ⟨hInv2, hdir, hrec, hshape⟩, by simp [launchedFiles]⟩

theorem session_select_step (g : Option String) {d : String} {n : Nat}
    (σ : SysState) (h : SessInv d n σ) :
    SessInv d n (stepAct (Act.selectWindow g) σ).1 ∧
      launchedFiles (stepAct (Act.selectWindow g) σ).2 = [] := by
  obtain ⟨hInv, hdir, hrec, hshape⟩ := h
  exact ⟨⟨inv_stepAct _ σ hInv, hdir, hrec, hshape⟩, rfl⟩

theorem session_run (acts : List Act) :
    (∀ a ∈ acts, isMidAct a) → ∀ (d : String) (n : Nat) (σ : SysState),
    SessInv d n σ →
    ∃ m, SessInv d m (runActs acts σ).1 ∧
      (List.range' 1 n).map (segFile d) ++ launchedFiles (runActs acts σ).2
        = (List.range' 1 m).map (segFile d) := by
  induction acts with
  | nil =>
    intro _ d n σ h
    exact ⟨n, h, by simp [runActs, launchedFiles]⟩
  | cons a rest ih =>
    intro hmid d n σ h
    have ha := hmid a (List.mem_cons_self a rest)
    have hrest : ∀ b ∈ rest, isMidAct b := fun b hb => hmid b (List.mem_cons_of_mem a hb)
    have hsplit : (runActs (a :: rest) σ).2
        = (stepAct a σ).2 ++ (runActs rest (stepAct a σ).1).2 := rfl
    cases a with
    | record env k u c => exact absurd ha (by simp [isMidAct])
    | pauseBtn env k =>
      obtain ⟨m1, h1, heq1⟩ := session_pause_step env k σ h
      obtain ⟨m2, h2, heq2⟩ := ih hrest d m1 _ h1
      refine ⟨m2, h2, ?_⟩
      rw [hsplit, launchedFiles_append, ← List.append_assoc, heq1, heq2]
    | selectWindow g =>
      obtain ⟨h1, hev⟩ := session_select_step g σ h
      obtain ⟨m2, h2, heq2⟩ := ih hrest d n _ h1
      refine ⟨m2, h2, ?_⟩
      rw [hsplit, launchedFiles_append, hev]
      simpa using heq2

theorem session_stop (env : StartEnv) (k : Bool) (u : Option String) (c : Bool)
    {d : String} {n : Nat} (σ : SysState) (h : SessInv d n σ) :
    combineArgs (stepAct (Act.record env k u c) σ).2
        = [(List.range' 1 n).map (segFile d)] ∧
    launchedFiles (stepAct (Act.record env k u c) σ).2 = [] := by
  obtain ⟨hInv, hdir, hrec, hshape⟩ := h
  cases hp : σ.recorder.current_segment_proc with
  | some p =>
    obtain ⟨f, hf⟩ := Option.isSome_iff_exists.mp
      (hInv.proc_file ▸ (hp ▸ rfl : σ.recorder.current_segment_proc.isSome = true))
    rw [stepAct_record_stop_some env k u c σ hrec hp]
    have hsh : σ.recorder.segments ++ [f] = (List.range' 1 n).map (segFile d) := by
      simpa [hf] using hshape
    constructor
    · rw [combineArgs_stopped_cons, combineArgs_combine]
      simp [stoppedRec, hf, hsh]
    · rw [launchedFiles_stopped_cons, launchedFiles_combine]
  | none =>
    have hf := file_none_of_proc_none hInv.proc_file hp
    rw [stepAct_record_stop_none env k u c σ hrec hp]
    have hsh : σ.recorder.segments = (List.range' 1 n).map (segFile d) := by
      simpa [hf] using hshape
    constructor
    · rw [combineArgs_combine]
      simp [hsh]
    · rw [launchedFiles_combine]

theorem combineArgs_step_mid (a : Act) (ha : isMidAct a) (σ : SysState) :
    combineArgs (stepAct a σ).2 = [] := by
  cases a with
  | record env k u c => exact absurd ha (by simp [isMidAct])
  | selectWindow g => rfl
  | pauseBtn env k =>
    by_cases hr : σ.recorder.is_recording = true
    · by_cases hpd : σ.recorder.paused = true
      · rw [stepAct_pause_resume env k σ hr hpd]
        rcases start_segment_spec env σ.recorder σ.world with ⟨t, hss⟩ | ⟨rd, hss⟩ <;>
          rw [hss] <;> rfl
      · rw [Bool.not_eq_true] at hpd
        cases hp : σ.recorder.current_segment_proc with
        | some p => rw [stepAct_pause_pause_some env k σ hr hpd hp]; rfl
        | none => rw [stepAct_pause_pause_none env k σ hr hpd hp]; rfl
    · rw [Bool.not_eq_true] at hr
      rw [stepAct_pause_idle env k σ hr]
      rfl

theorem combineArgs_run_mid (acts : List Act) :
    (∀ a ∈ acts, isMidAct a) → ∀ σ : SysState,
    combineArgs (runActs acts σ).2 = [] := by
  induction acts with
  | nil => intro _ σ; rfl
  | cons a rest ih =>
    intro hmid σ
    have hsplit : (runActs (a :: rest) σ).2
        = (stepAct a σ).2 ++ (runActs rest (stepAct a σ).1).2 := rfl
    rw [hsplit, combineArgs_append,
      combineArgs_step_mid a (hmid a (List.mem_cons_self a rest)),
      ih (fun b hb => hmid b (List.mem_cons_of_mem a hb)) _]
    rfl

theorem combineArgs_start_step (env : StartEnv) (k : Bool) (u : Option String)
    (c : Bool) (σ : SysState) (hr : σ.recorder.is_recording = false) :
    combineArgs (stepAct (Act.record env k u c) σ).2 = [] := by
  rw [stepAct_record_start env k u c σ hr]
  rcases start_segment_spec env (startingRec σ.recorder env.now) σ.world with
    ⟨t, hss⟩ | ⟨rd, hss⟩ <;> rw [hss] <;> rfl

/-- The event trace of one full session: a `start()` press, any sequence
of pause/resume/select-window actions, then a `stop()` press. -/
def sessionTrace (start stop : Act) (mid : List Act) (σ : SysState) : List Event :=
  (stepAct start σ).2 ++ (runActs mid (stepAct start σ).1).2
    ++ (stepAct stop (runActs mid (stepAct start σ).1).1).2

/-- C3.  Within one session the launched segment files are exactly
`segment_1.mp4 … segment_m.mp4` — strictly increasing, gapless — whatever
the interleaving of pause/resume cycles (including failed resumes) and
whatever the recorder had accumulated before the session (`toggle_recording`
clears the list at start, third conjunct); and every launch of
`_start_segment` uses index `len(segments) + 1` (second conjunct). -/
theorem C3_segment_numbering_gapless :
    (∀ (env : StartEnv) (k : Bool) (u : Option String) (c : Bool)
       (σ : SysState) (mid : List Act),
      Inv σ → σ.recorder.is_recording = false → (∀ a ∈ mid, isMidAct a) →
      ∃ m, launchedFiles ((stepAct (Act.record env k u c) σ).2
            ++ (runActs mid (stepAct (Act.record env k u c) σ).1).2)
          = (List.range' 1 m).map (segFile σ.recorder.output_dir)) ∧
    (∀ (env : StartEnv) (s : ScreenRecorder) (w : World),
      (∃ t, (start_segment env s w).2.2 = [Event.dialog t]) ∨
      (∃ pid cmd, (start_segment env s w).2.2
        = [Event.launched (s.segments.length + 1)
            (segFile s.output_dir (s.segments.length + 1)) pid cmd])) ∧
    (∀ (env : StartEnv) (k : Bool) (u : Option String) (c : Bool)
       (s : ScreenRecorder) (w : World) (fs : List String),
      s.is_recording = false →
      (toggle_recording env k u c s w fs).1.segments = []) := by
  refine ⟨?_, ?_, ?_⟩
  · intro env k u c σ mid hInv hr hmid
    obtain ⟨n1, h1, heq1⟩ := session_start env k u c σ hInv hr
    obtain ⟨m, _, heq2⟩ := session_run mid hmid _ n1 _ h1
    refine ⟨m, ?_⟩
    rw [launchedFiles_append, heq1]
    exact heq2
  · intro env s w
    rcases start_segment_spec env s w with ⟨t, hss⟩ | ⟨rd, hss⟩
    · exact Or.inl ⟨t, by rw [hss]⟩
    · exact Or.inr ⟨w.nextPid, _, by rw [hss]⟩
  · intro env k u c s w fs hr
    simp only [toggle_recording, hr, Bool.false_eq_true, if_false]
    rw [start_segment_segments]

theorem C3_witness :
    Inv (initSys "home" []) ∧
    (initSys "home" []).recorder.is_recording = false ∧
    (∀ a ∈ ([Act.pauseBtn env_desktop false, Act.pauseBtn env_desktop false]
        : List Act), isMidAct a) ∧
    (∃ m, launchedFiles
        ((stepAct (Act.record env_desktop false none false) (initSys "home" [])).2
          ++ (runActs [Act.pauseBtn env_desktop false, Act.pauseBtn env_desktop false]
                (stepAct (Act.record env_desktop false none false)
                  (initSys "home" [])).1).2)
      = (List.range' 1 m).map (segFile (initSys "home" []).recorder.output_dir)) :=
  ⟨inv_initSys "home" [], rfl,
   by intro a ha; fin_cases ha <;> trivial,
   C3_segment_numbering_gapless.1 env_desktop false none false (initSys "home" [])
     [Act.pauseBtn env_desktop false, Act.pauseBtn env_desktop false]
     (inv_initSys "home" [])
     rfl
     (by intro a ha; fin_cases ha <;> trivial)⟩

/-- C4.  Over any full session (start, any mid actions, stop), the single
segment list handed to `_combine_segments` is exactly the list of segment
files whose captures were started, in start order, with no duplicates and
no omissions. -/
theorem C4_combine_receives_started_segments :
    ∀ (envS : StartEnv) (kS : Bool) (uS : Option String) (cS : Bool)
      (envE : StartEnv) (kE : Bool) (uE : Option String) (cE : Bool)
      (mid : List Act) (σ : SysState),
      Inv σ → σ.recorder.is_recording = false → (∀ a ∈ mid, isMidAct a) →
      combineArgs (sessionTrace (Act.record envS kS uS cS)
          (Act.record envE kE uE cE) mid σ)
        = [launchedFiles (sessionTrace (Act.record envS kS uS cS)
            (Act.record envE kE uE cE) mid σ)] ∧
      (launchedFiles (sessionTrace (Act.record envS kS uS cS)
          (Act.record envE kE uE cE) mid σ)).Nodup := by
  intro envS kS uS cS envE kE uE cE mid σ hInv hr hmid
  obtain ⟨n1, h1, heq1⟩ := session_start envS kS uS cS σ hInv hr
  obtain ⟨m, h2, heq2⟩ := session_run mid hmid _ n1 _ h1
  obtain ⟨hcomb, hstopl⟩ := session_stop envE kE uE cE _ h2
  have hlf : launchedFiles (sessionTrace (Act.record envS kS uS cS)
      (Act.record envE kE uE cE) mid σ)
      = (List.range' 1 m).map (segFile σ.recorder.output_dir) := by
    rw [sessionTrace, launchedFiles_append, launchedFiles_append, heq1, hstopl,
      List.append_nil]
    exact heq2
  refine ⟨?_, ?_⟩
  · rw [hlf, sessionTrace, combineArgs_append, combineArgs_append,
      combineArgs_start_step envS kS uS cS σ hr,
      combineArgs_run_mid mid hmid _, hcomb]
    rfl
  · rw [hlf]
    exact (List.nodup_range' 1 m).map (fun i j hij => segFile_inj hij)

theorem C4_witness :
    Inv (initSys "home" []) ∧
    (initSys "home" []).recorder.is_recording = false ∧
    (∀ a ∈ ([Act.pauseBtn env_desktop false, Act.pauseBtn env_desktop false]
        : List Act), isMidAct a) ∧
    (combineArgs (sessionTrace (Act.record env_desktop false none false)
          (Act.record env_desktop false none false)
          [Act.pauseBtn env_desktop false, Act.pauseBtn env_desktop false]
          (initSys "home" []))
        = [launchedFiles (sessionTrace (Act.record env_desktop false none false)
            (Act.record env_desktop false none false)
            [Act.pauseBtn env_desktop false, Act.pauseBtn env_desktop false]
            (initSys "home" []))] ∧
      (launchedFiles (sessionTrace (Act.record env_desktop false none false)
          (Act.record env_desktop false none false)
          [Act.pauseBtn env_desktop false, Act.pauseBtn env_desktop false]
          (initSys "home" []))).Nodup) :=
  ⟨inv_initSys "home" [], rfl,
   by intro a ha; fin_cases ha <;> trivial,
   C4_combine_receives_started_segments env_desktop false none false
     env_desktop false none false
     [Act.pauseBtn env_desktop false, Act.pauseBtn env_desktop false]
     (initSys "home" []) (inv_initSys "home" []) rfl
     (by intro a ha; fin_cases ha <;> trivial)⟩

end Screenrec
